import Mathlib

/-!
Verification of `src/GVRf/Framework/jni/objects/textures/base_texture.h`
(GearVRf `gvr::BaseTexture`, a 2D GL texture built from an Android bitmap
or from a raw RGBA8 pixel buffer).

The embedding models the two external systems the constructor drives —
the Android bitmap API and the OpenGL texture API — as explicit state
plus a trace of the calls issued, and translates the two constructors
and the `getTarget` accessor straight from the source.
-/

namespace GVRf

/-- OpenGL constant `GL_TEXTURE_2D`. -/
def GL_TEXTURE_2D : Nat := 0x0DE1

/-- OpenGL constant `GL_RGBA`. -/
def GL_RGBA : Nat := 0x1908

/-- OpenGL constant `GL_UNSIGNED_BYTE`. -/
def GL_UNSIGNED_BYTE : Nat := 0x1401

/-- The image record a `glTexImage2D` call stores for a texture object:
the level, internal format, dimensions, border, source format, channel
type and the client-memory bytes read for the upload. -/
structure TexImage where
  level : Nat
  internalformat : Nat
  width : Int
  height : Int
  border : Nat
  srcFormat : Nat
  channelType : Nat
  pixels : List Nat
deriving Repr, DecidableEq

/-- The slice of OpenGL context state the code touches: the id counter of
the driver's texture-name allocator, the currently bound 2D texture slot,
the set of live texture names, and the image storage per texture name. -/
structure GLState where
  nextTextureId : Nat
  boundTexture2D : Nat
  aliveTextures : List Nat
  images : List (Nat × TexImage)
deriving Repr, DecidableEq

/-- One call into an external API, as recorded in the construction trace. -/
inductive GLEvent where
  | genTexture (id : Nat)
  | deleteTexture (id : Nat)
  | androidGetInfo
  | androidLockPixels
  | androidUnlockPixels
  | bindTexture (target : Nat) (id : Nat)
  | texImage2D (target : Nat) (level : Nat) (internalformat : Nat)
      (width : Int) (height : Int) (border : Nat) (srcFormat : Nat)
      (channelType : Nat)
  | getError
deriving Repr, DecidableEq

/-- Modelled from the spec: the base texture abstraction (`GLTexture`,
declared outside this file) supplies GPU handle allocation — the member
initializer `Texture(new GLTexture(TARGET))` obtains a fresh texture name
from the driver.  Allocation only: it hands out the next unused name and
marks it live. -/
def glGenTexture (s : GLState) : Nat × GLState :=
  (s.nextTextureId,
   { s with
      nextTextureId := s.nextTextureId + 1,
      aliveTextures := s.nextTextureId :: s.aliveTextures })

/-- `glBindTexture(target, id)`: for the 2D target, point the bound-2D
slot at `id`. -/
def glBindTexture (target : Nat) (id : Nat) (s : GLState) : GLState :=
  if target = GL_TEXTURE_2D then { s with boundTexture2D := id } else s

/-- `glTexImage2D` on the 2D target: record the image for the texture
currently bound to that target.  For the `GL_RGBA` / `GL_UNSIGNED_BYTE`
combination the code always passes, the driver reads
`width * height * 4` bytes from the client pointer. -/
def glTexImage2D (target : Nat) (level : Nat) (internalformat : Nat)
    (width : Int) (height : Int) (border : Nat) (srcFormat : Nat)
    (channelType : Nat) (pixels : List Nat) (s : GLState) : GLState :=
  if target = GL_TEXTURE_2D then
    { s with
       images :=
        (s.boundTexture2D,
         { level := level, internalformat := internalformat,
           width := width, height := height, border := border,
           srcFormat := srcFormat, channelType := channelType,
           pixels := pixels.take (width * height * 4).toNat }) :: s.images }
  else s

/-- An Android bitmap handle as the constructor observes it: the result
code of `AndroidBitmap_getInfo`, the metadata it fills in on success, the
result code of `AndroidBitmap_lockPixels`, and the pixel bytes the lock
exposes. -/
structure AndroidBitmap where
  getInfoRet : Int
  width : Nat
  height : Nat
  format : Nat
  lockPixelsRet : Int
  pixels : List Nat
deriving Repr, DecidableEq

/-- The string literal of the first error path
(`base_texture.h` line 40). -/
def getInfoFailedMessage : String := "AndroidBitmap_getInfo () failed! error = "

/-- The string literal of the second error path
(`base_texture.h` line 46). -/
def lockPixelsFailedMessage : String := "AndroidBitmap_lockPixels () failed! error = "

/-- C++ pointer arithmetic `lit + n` on a string literal, followed by
`std::string` construction from the resulting `const char*`.  The
expression `"..." + ret` in the source is of this shape (there is no
arithmetic `operator+` taking `const char*` and `int` that concatenates).
For `0 ≤ n ≤ strlen(lit)` the pointer stays inside the literal (or at its
terminator) and the constructed string is the suffix from offset `n`; any
other offset leaves the array and the behaviour is undefined, modelled as
`none`. -/
def charPtrAddInt (lit : String) (n : Int) : Option String :=
  if 0 ≤ n ∧ n ≤ (lit.length : Int) then some (lit.drop n.toNat) else none

/-- The `gvr::BaseTexture` value a successful construction yields.  The
member added over the base classes is the `GLTexture` handle wrapped by
`Texture`, reduced here to the texture name it owns. -/
structure BaseTexture where
  gl_texture_id : Nat
deriving Repr, DecidableEq

/-- `static const GLenum TARGET = GL_TEXTURE_2D;`
(`base_texture.h` line 76). -/
def BaseTexture.TARGET : Nat := GL_TEXTURE_2D

/-- `GLenum getTarget() const { return TARGET; }`
(`base_texture.h` lines 65–67).  A pure function of the receiver: it
takes no state and returns the class constant. -/
def BaseTexture.getTarget (_t : BaseTexture) : Nat := BaseTexture.TARGET

/-- Outcome of running a constructor: either a constructed value or a
thrown `std::string`, in both cases with the final external state and the
trace of external calls issued.  The thrown payload is an `Option` because
the source builds it by pointer arithmetic that can be undefined
(`charPtrAddInt`). -/
inductive CtorResult where
  | ok (tex : BaseTexture) (s : GLState) (trace : List GLEvent)
  | thrown (err : Option String) (s : GLState) (trace : List GLEvent)
deriving Repr, DecidableEq

/-- The final external state of a construction outcome. -/
def CtorResult.state : CtorResult → GLState
  | .ok _ s _ => s
  | .thrown _ s _ => s

/-- The trace of external calls of a construction outcome. -/
def CtorResult.trace : CtorResult → List GLEvent
  | .ok _ _ tr => tr
  | .thrown _ _ tr => tr

/-- Whether construction completed (no throw). -/
def CtorResult.isOk : CtorResult → Bool
  | .ok _ _ _ => true
  | .thrown _ _ _ => false

/-- `BaseTexture::BaseTexture(JNIEnv* env, jobject bitmap)`
(`base_texture.h` lines 34–56), translated line by line:
the member initializer allocates a fresh GL texture name; then
`AndroidBitmap_getInfo` is called and a negative result throws the
`getInfo` error string; then `AndroidBitmap_lockPixels` is called and a
negative result throws the `lockPixels` error string; then
`AndroidBitmap_unlockPixels`, `glBindTexture(GL_TEXTURE_2D, id)` and
`glTexImage2D(GL_TEXTURE_2D, 0, GL_RGBA, info.width, info.height, 0,
GL_RGBA, GL_UNSIGNED_BYTE, pixels)`. -/
def BaseTexture.fromBitmap (bmp : AndroidBitmap) (s0 : GLState) : CtorResult :=
  let g := glGenTexture s0
  let texId := g.1
  let s1 := g.2
  let ret1 := bmp.getInfoRet
  if ret1 < 0 then
    CtorResult.thrown (charPtrAddInt getInfoFailedMessage ret1) s1
      [GLEvent.genTexture texId, GLEvent.androidGetInfo]
  else
    let ret2 := bmp.lockPixelsRet
    if ret2 < 0 then
      CtorResult.thrown (charPtrAddInt lockPixelsFailedMessage ret2) s1
        [GLEvent.genTexture texId, GLEvent.androidGetInfo,
         GLEvent.androidLockPixels]
    else
      let s2 := glBindTexture GL_TEXTURE_2D texId s1
      let s3 := glTexImage2D GL_TEXTURE_2D 0 GL_RGBA (bmp.width : Int)
        (bmp.height : Int) 0 GL_RGBA GL_UNSIGNED_BYTE bmp.pixels s2
      CtorResult.ok { gl_texture_id := texId } s3
        [GLEvent.genTexture texId, GLEvent.androidGetInfo,
         GLEvent.androidLockPixels, GLEvent.androidUnlockPixels,
         GLEvent.bindTexture GL_TEXTURE_2D texId,
         GLEvent.texImage2D GL_TEXTURE_2D 0 GL_RGBA (bmp.width : Int)
           (bmp.height : Int) 0 GL_RGBA GL_UNSIGNED_BYTE]

/-- `BaseTexture::BaseTexture(int width, int height, const unsigned char* pixels)`
(`base_texture.h` lines 58–63): allocate a fresh GL texture name, bind it
to the 2D target, upload.  No input check, no `glGetError`, no throw. -/
def BaseTexture.fromPixels (width : Int) (height : Int) (pixels : List Nat)
    (s0 : GLState) : CtorResult :=
  let g := glGenTexture s0
  let texId := g.1
  let s1 := g.2
  let s2 := glBindTexture GL_TEXTURE_2D texId s1
  let s3 := glTexImage2D GL_TEXTURE_2D 0 GL_RGBA width height 0 GL_RGBA
    GL_UNSIGNED_BYTE pixels s2
  CtorResult.ok { gl_texture_id := texId } s3
    [GLEvent.genTexture texId,
     GLEvent.bindTexture GL_TEXTURE_2D texId,
     GLEvent.texImage2D GL_TEXTURE_2D 0 GL_RGBA width height 0 GL_RGBA
       GL_UNSIGNED_BYTE]

/-- A fresh GL context to evaluate concrete constructions in. -/
def glInit : GLState :=
  { nextTextureId := 1, boundTexture2D := 0, aliveTextures := [], images := [] }

/-- A bitmap whose metadata query fails with `ANDROID_BITMAP_RESULT_BAD_PARAMETER` (-1). -/
def bmpBadInfo : AndroidBitmap :=
  { getInfoRet := -1, width := 0, height := 0, format := 0,
    lockPixelsRet := 0, pixels := [] }

/-- A bitmap whose metadata query succeeds and whose pixel lock fails
with `ANDROID_BITMAP_RESULT_JNI_EXCEPTION` (-2). -/
def bmpBadLock : AndroidBitmap :=
  { getInfoRet := 0, width := 0, height := 0, format := 0,
    lockPixelsRet := -2, pixels := [] }

/-- A valid 2×2 RGBA8 bitmap. -/
def bmpGood : AndroidBitmap :=
  { getInfoRet := 0, width := 2, height := 2, format := 1,
    lockPixelsRet := 0,
    pixels := [10, 20, 30, 40, 50, 60, 70, 80,
               90, 100, 110, 120, 130, 140, 150, 160] }

/-- Claim C1 (code bug): at a failing metadata query with platform code
-1, the `std::string error = "AndroidBitmap_getInfo () failed! error = "
+ ret` initialization is pointer arithmetic on the literal with a
negative offset — undefined behaviour (`charPtrAddInt _ (-1) = none`),
not a message embedding the error code.  The constructor throws, but the
payload carries no platform error code. -/
theorem bitmap_error_message_lacks_code :
    BaseTexture.fromBitmap bmpBadInfo glInit
      = CtorResult.thrown none
          { nextTextureId := 2, boundTexture2D := 0,
            aliveTextures := [1], images := [] }
          [GLEvent.genTexture 1, GLEvent.androidGetInfo]
      ∧ charPtrAddInt getInfoFailedMessage (-1) = none := by
  constructor
  · rfl
  · rfl

/-- Claim C2: whenever `AndroidBitmap_getInfo` reports a negative code,
the bitmap constructor throws the getInfo error value right after the
metadata call and construction does not complete — the outcome is
`thrown`, not `ok`, so no `BaseTexture` value reaches the caller. -/
theorem getInfo_failure_throws (bmp : AndroidBitmap) (s : GLState)
    (h : bmp.getInfoRet < 0) :
    BaseTexture.fromBitmap bmp s
      = CtorResult.thrown (charPtrAddInt getInfoFailedMessage bmp.getInfoRet)
          (glGenTexture s).2
          [GLEvent.genTexture s.nextTextureId, GLEvent.androidGetInfo]
      ∧ (BaseTexture.fromBitmap bmp s).isOk = false := by
  have hstep : BaseTexture.fromBitmap bmp s
      = CtorResult.thrown (charPtrAddInt getInfoFailedMessage bmp.getInfoRet)
          (glGenTexture s).2
          [GLEvent.genTexture s.nextTextureId, GLEvent.androidGetInfo] := by
    simp only [BaseTexture.fromBitmap, glGenTexture]
    rw [if_pos h]
  exact ⟨hstep, by rw [hstep]; rfl⟩

/-- Witness for C2 at the concrete bitmap `bmpBadInfo`. -/
theorem getInfo_failure_throws_w :
    BaseTexture.fromBitmap bmpBadInfo glInit
      = CtorResult.thrown
          (charPtrAddInt getInfoFailedMessage bmpBadInfo.getInfoRet)
          (glGenTexture glInit).2
          [GLEvent.genTexture glInit.nextTextureId, GLEvent.androidGetInfo]
      ∧ (BaseTexture.fromBitmap bmpBadInfo glInit).isOk = false :=
  getInfo_failure_throws bmpBadInfo glInit (by decide)

/-- Claim C3: whenever the metadata query succeeds but
`AndroidBitmap_lockPixels` reports a negative code, the bitmap
constructor throws the lockPixels error value and construction does not
complete. -/
theorem lockPixels_failure_throws (bmp : AndroidBitmap) (s : GLState)
    (h1 : 0 ≤ bmp.getInfoRet) (h2 : bmp.lockPixelsRet < 0) :
    BaseTexture.fromBitmap bmp s
      = CtorResult.thrown (charPtrAddInt lockPixelsFailedMessage bmp.lockPixelsRet)
          (glGenTexture s).2
          [GLEvent.genTexture s.nextTextureId, GLEvent.androidGetInfo,
           GLEvent.androidLockPixels]
      ∧ (BaseTexture.fromBitmap bmp s).isOk = false := by
  have hstep : BaseTexture.fromBitmap bmp s
      = CtorResult.thrown (charPtrAddInt lockPixelsFailedMessage bmp.lockPixelsRet)
          (glGenTexture s).2
          [GLEvent.genTexture s.nextTextureId, GLEvent.androidGetInfo,
           GLEvent.androidLockPixels] := by
    simp only [BaseTexture.fromBitmap, glGenTexture]
    rw [if_neg (not_lt.mpr h1), if_pos h2]
  exact ⟨hstep, by rw [hstep]; rfl⟩

/-- Witness for C3 at the concrete bitmap `bmpBadLock`. -/
theorem lockPixels_failure_throws_w :
    BaseTexture.fromBitmap bmpBadLock glInit
      = CtorResult.thrown
          (charPtrAddInt lockPixelsFailedMessage bmpBadLock.lockPixelsRet)
          (glGenTexture glInit).2
          [GLEvent.genTexture glInit.nextTextureId, GLEvent.androidGetInfo,
           GLEvent.androidLockPixels]
      ∧ (BaseTexture.fromBitmap bmpBadLock glInit).isOk = false :=
  lockPixels_failure_throws bmpBadLock glInit (by decide) (by decide)

/-- Claim C4: for a valid bitmap handle the constructor issues exactly
these external calls, in order: allocate the handle (member initializer),
query metadata, lock pixels, unlock pixels — before any GL call — bind
the texture to the 2D target, then one upload with the queried
width/height, `GL_RGBA` source and internal format and
`GL_UNSIGNED_BYTE` channels; and the image stored for the texture has
exactly the bitmap's width and height. -/
theorem valid_bitmap_ctor_steps (bmp : AndroidBitmap) (s : GLState)
    (h1 : 0 ≤ bmp.getInfoRet) (h2 : 0 ≤ bmp.lockPixelsRet) :
    (BaseTexture.fromBitmap bmp s).trace
      = [GLEvent.genTexture s.nextTextureId, GLEvent.androidGetInfo,
         GLEvent.androidLockPixels, GLEvent.androidUnlockPixels,
         GLEvent.bindTexture GL_TEXTURE_2D s.nextTextureId,
         GLEvent.texImage2D GL_TEXTURE_2D 0 GL_RGBA (bmp.width : Int)
           (bmp.height : Int) 0 GL_RGBA GL_UNSIGNED_BYTE]
      ∧ (BaseTexture.fromBitmap bmp s).isOk = true
      ∧ ((BaseTexture.fromBitmap bmp s).state.images.lookup s.nextTextureId)
          = some { level := 0, internalformat := GL_RGBA,
                   width := (bmp.width : Int), height := (bmp.height : Int),
                   border := 0, srcFormat := GL_RGBA,
                   channelType := GL_UNSIGNED_BYTE,
                   pixels := bmp.pixels.take
                     ((bmp.width : Int) * (bmp.height : Int) * 4).toNat } := by
  have hstep : BaseTexture.fromBitmap bmp s
      = CtorResult.ok { gl_texture_id := s.nextTextureId }
          (glTexImage2D GL_TEXTURE_2D 0 GL_RGBA (bmp.width : Int)
            (bmp.height : Int) 0 GL_RGBA GL_UNSIGNED_BYTE bmp.pixels
            (glBindTexture GL_TEXTURE_2D s.nextTextureId (glGenTexture s).2))
          [GLEvent.genTexture s.nextTextureId, GLEvent.androidGetInfo,
           GLEvent.androidLockPixels, GLEvent.androidUnlockPixels,
           GLEvent.bindTexture GL_TEXTURE_2D s.nextTextureId,
           GLEvent.texImage2D GL_TEXTURE_2D 0 GL_RGBA (bmp.width : Int)
             (bmp.height : Int) 0 GL_RGBA GL_UNSIGNED_BYTE] := by
    simp only [BaseTexture.fromBitmap, glGenTexture]
    rw [if_neg (not_lt.mpr h1), if_neg (not_lt.mpr h2)]
  refine ⟨by rw [hstep]; rfl, by rw [hstep]; rfl, ?_⟩
  rw [hstep]
  simp [CtorResult.state, glTexImage2D, glBindTexture, GL_TEXTURE_2D,
    List.lookup]

/-- Witness for C4 at the concrete 2×2 bitmap `bmpGood`. -/
theorem valid_bitmap_ctor_steps_w :
    (BaseTexture.fromBitmap bmpGood glInit).trace
      = [GLEvent.genTexture glInit.nextTextureId, GLEvent.androidGetInfo,
         GLEvent.androidLockPixels, GLEvent.androidUnlockPixels,
         GLEvent.bindTexture GL_TEXTURE_2D glInit.nextTextureId,
         GLEvent.texImage2D GL_TEXTURE_2D 0 GL_RGBA (bmpGood.width : Int)
           (bmpGood.height : Int) 0 GL_RGBA GL_UNSIGNED_BYTE]
      ∧ (BaseTexture.fromBitmap bmpGood glInit).isOk = true
      ∧ ((BaseTexture.fromBitmap bmpGood glInit).state.images.lookup
            glInit.nextTextureId)
          = some { level := 0, internalformat := GL_RGBA,
                   width := (bmpGood.width : Int),
                   height := (bmpGood.height : Int),
                   border := 0, srcFormat := GL_RGBA,
                   channelType := GL_UNSIGNED_BYTE,
                   pixels := bmpGood.pixels.take
                     ((bmpGood.width : Int) * (bmpGood.height : Int) * 4).toNat } :=
  valid_bitmap_ctor_steps bmpGood glInit (by decide) (by decide)

/-- Claim C5: for every (width, height, buffer) triple whose buffer holds
at least `width * height * 4` bytes, the raw-buffer constructor completes,
the image stored for the constructed texture has exactly the supplied
width and height with `GL_RGBA` format and `GL_UNSIGNED_BYTE` channels
and exactly `width * height * 4` bytes of payload, and the resource's
`getTarget` accessor returns the 2D-texture constant. -/
theorem raw_ctor_populates (w h : Int) (buf : List Nat) (s : GLState)
    (hlen : w * h * 4 ≤ (buf.length : Int)) :
    (BaseTexture.fromPixels w h buf s).isOk = true
      ∧ ((BaseTexture.fromPixels w h buf s).state.images.lookup s.nextTextureId)
          = some { level := 0, internalformat := GL_RGBA, width := w,
                   height := h, border := 0, srcFormat := GL_RGBA,
                   channelType := GL_UNSIGNED_BYTE,
                   pixels := buf.take (w * h * 4).toNat }
      ∧ (buf.take (w * h * 4).toNat).length = (w * h * 4).toNat
      ∧ BaseTexture.getTarget { gl_texture_id := s.nextTextureId }
          = GL_TEXTURE_2D := by
  refine ⟨rfl, ?_, ?_, rfl⟩
  · simp [BaseTexture.fromPixels, CtorResult.state, glGenTexture,
      glTexImage2D, glBindTexture, GL_TEXTURE_2D, List.lookup]
  · rw [List.length_take]
    exact min_eq_left (Int.toNat_le.mpr hlen)

/-- Witness for C5 at the spec's example: a 2×2 RGBA8 buffer of 16 bytes. -/
theorem raw_ctor_populates_w :
    (BaseTexture.fromPixels 2 2 bmpGood.pixels glInit).isOk = true
      ∧ ((BaseTexture.fromPixels 2 2 bmpGood.pixels glInit).state.images.lookup
            glInit.nextTextureId)
          = some { level := 0, internalformat := GL_RGBA, width := 2,
                   height := 2, border := 0, srcFormat := GL_RGBA,
                   channelType := GL_UNSIGNED_BYTE,
                   pixels := bmpGood.pixels.take ((2 : Int) * 2 * 4).toNat }
      ∧ (bmpGood.pixels.take ((2 : Int) * 2 * 4).toNat).length
          = ((2 : Int) * 2 * 4).toNat
      ∧ BaseTexture.getTarget { gl_texture_id := glInit.nextTextureId }
          = GL_TEXTURE_2D :=
  raw_ctor_populates 2 2 bmpGood.pixels glInit (by decide)

/-- Claim C6: the raw-buffer constructor checks nothing — for every
input, any width and height (negative included) and any buffer length,
it completes without a throw, and it never consults the GL error state
(no `glGetError` call appears in its trace). -/
theorem raw_ctor_never_fails (w h : Int) (buf : List Nat) (s : GLState) :
    (BaseTexture.fromPixels w h buf s).isOk = true
      ∧ GLEvent.getError ∉ (BaseTexture.fromPixels w h buf s).trace := by
  refine ⟨rfl, ?_⟩
  simp [BaseTexture.fromPixels, CtorResult.trace]

/-- Claim C7: `getTarget` is pure — a function of the receiver alone,
taking no state and mutating nothing — and always returns the fixed 2D
binding target constant. -/
theorem getTarget_pure_const (t : BaseTexture) :
    t.getTarget = GL_TEXTURE_2D ∧ t.getTarget = BaseTexture.TARGET :=
  ⟨rfl, rfl⟩

/-- Claim C9: on both failure paths of the bitmap constructor (metadata
query fails, or it succeeds and the pixel lock fails) no bind and no
upload call is issued, and the bound-2D-texture slot of the final state
equals the one of the initial state. -/
theorem failed_ctor_leaves_binding (bmp : AndroidBitmap) (s : GLState)
    (hfail : bmp.getInfoRet < 0
      ∨ 0 ≤ bmp.getInfoRet ∧ bmp.lockPixelsRet < 0) :
    (∀ tgt id, GLEvent.bindTexture tgt id
        ∉ (BaseTexture.fromBitmap bmp s).trace)
      ∧ (∀ tgt lvl ifmt w h b f ct,
          GLEvent.texImage2D tgt lvl ifmt w h b f ct
            ∉ (BaseTexture.fromBitmap bmp s).trace)
      ∧ (BaseTexture.fromBitmap bmp s).state.boundTexture2D
          = s.boundTexture2D := by
  rcases hfail with h | ⟨h1, h2⟩
  · rcases getInfo_failure_throws bmp s h with ⟨hstep, -⟩
    rw [hstep]
    refine ⟨?_, ?_, rfl⟩ <;> intros <;>
      simp [CtorResult.trace]
  · rcases lockPixels_failure_throws bmp s h1 h2 with ⟨hstep, -⟩
    rw [hstep]
    refine ⟨?_, ?_, rfl⟩ <;> intros <;>
      simp [CtorResult.trace]

/-- Witness for C9 at the concrete bitmap `bmpBadInfo`. -/
theorem failed_ctor_leaves_binding_w :
    (∀ tgt id, GLEvent.bindTexture tgt id
        ∉ (BaseTexture.fromBitmap bmpBadInfo glInit).trace)
      ∧ (∀ tgt lvl ifmt w h b f ct,
          GLEvent.texImage2D tgt lvl ifmt w h b f ct
            ∉ (BaseTexture.fromBitmap bmpBadInfo glInit).trace)
      ∧ (BaseTexture.fromBitmap bmpBadInfo glInit).state.boundTexture2D
          = glInit.boundTexture2D :=
  failed_ctor_leaves_binding bmpBadInfo glInit (Or.inl (by decide))

/-- Claim C10: in both constructors the first external call is the
allocation of a fresh GL texture handle by the member initializer, before
any bitmap validation; on a failure path of the bitmap constructor the
handle has therefore already been created, remains live in the final
state, and no delete call ever appears in the trace before the error
propagates. -/
theorem ctor_allocates_before_validation (bmp : AndroidBitmap)
    (w h : Int) (buf : List Nat) (s : GLState)
    (hfail : bmp.getInfoRet < 0
      ∨ 0 ≤ bmp.getInfoRet ∧ bmp.lockPixelsRet < 0) :
    (BaseTexture.fromBitmap bmp s).trace.head?
        = some (GLEvent.genTexture s.nextTextureId)
      ∧ (BaseTexture.fromPixels w h buf s).trace.head?
          = some (GLEvent.genTexture s.nextTextureId)
      ∧ (BaseTexture.fromBitmap bmp s).isOk = false
      ∧ s.nextTextureId ∈ (BaseTexture.fromBitmap bmp s).state.aliveTextures
      ∧ ∀ i, GLEvent.deleteTexture i ∉ (BaseTexture.fromBitmap bmp s).trace := by
  rcases hfail with hf | ⟨h1, h2⟩
  · rcases getInfo_failure_throws bmp s hf with ⟨hstep, hok⟩
    rw [hstep]
    refine ⟨rfl, rfl, rfl, ?_, ?_⟩
    · simp [CtorResult.state, glGenTexture]
    · intro i
      simp [CtorResult.trace]
  · rcases lockPixels_failure_throws bmp s h1 h2 with ⟨hstep, hok⟩
    rw [hstep]
    refine ⟨rfl, rfl, rfl, ?_, ?_⟩
    · simp [CtorResult.state, glGenTexture]
    · intro i
      simp [CtorResult.trace]

/-- Witness for C10 at the concrete bitmap `bmpBadLock`. -/
theorem ctor_allocates_before_validation_w :
    (BaseTexture.fromBitmap bmpBadLock glInit).trace.head?
        = some (GLEvent.genTexture glInit.nextTextureId)
      ∧ (BaseTexture.fromPixels 2 2 bmpGood.pixels glInit).trace.head?
          = some (GLEvent.genTexture glInit.nextTextureId)
      ∧ (BaseTexture.fromBitmap bmpBadLock glInit).isOk = false
      ∧ glInit.nextTextureId
          ∈ (BaseTexture.fromBitmap bmpBadLock glInit).state.aliveTextures
      ∧ ∀ i, GLEvent.deleteTexture i
          ∉ (BaseTexture.fromBitmap bmpBadLock glInit).trace :=
  ctor_allocates_before_validation bmpBadLock 2 2 bmpGood.pixels glInit
    (Or.inr ⟨by decide, by decide⟩)

end GVRf
